import Mathlib

/- Verification development for the query-resolution pipeline of the
   ai-monitoring-analytics backend.  The definitions below are a shallow
   embedding of backend/api/database/queries.py and
   backend/api/services/chat_service.py: pure Python functions become Lean
   functions, async collaborators (LLM agents, the database driver, the chat
   store) become oracle fields of an environment record, and Python
   exceptions become an explicit error type threaded through Except. -/

namespace AIMon

/-- Python exceptions that occur in the embedded code: fastapi.HTTPException
    (status code and detail), asyncio.TimeoutError, and any other Exception
    carried as its message string. -/
inductive PyErr where
  | http (status : Nat) (detail : String)
  | timeoutErr
  | exc (msg : String)
deriving DecidableEq

/-- Python str(e): fastapi.HTTPException renders as "status: detail",
    str(asyncio.TimeoutError()) is empty, a generic exception is its message. -/
def errStr : PyErr → String
  | .http s d => toString s ++ ": " ++ d
  | .timeoutErr => ""
  | .exc m => m

/-- Outcome of awaiting one asynchronous collaborator call: it returns a
    value, raises an exception, or fails to complete within the wrapping
    timeout (hang). -/
inductive CoOutcome (α : Type) where
  | ret (a : α)
  | raise (e : PyErr)
  | hang
deriving DecidableEq

/- ---------- character/string helpers (kernel-friendly, over String.data) -/

/-- The single-quote character (written via its code point). -/
def quoteChar : Char := Char.ofNat 39

/-- Python regex class backslash-s: space, tab, newline, carriage return,
    vertical tab, form feed. -/
def pyIsSpace (c : Char) : Bool :=
  c = ' ' || c = '\t' || c = '\n' || c = '\r' || c = Char.ofNat 11 || c = Char.ofNat 12

/-- Python regex class backslash-w. -/
def isWordChar (c : Char) : Bool := c.isAlphanum || c = '_'

def lowerChars (l : List Char) : List Char := l.map Char.toLower

/-- Case-insensitive prefix test, as used by re.IGNORECASE literal matching
    (character-by-character, so evaluation stops at the first mismatch). -/
def ciPrefix : List Char → List Char → Bool
  | [], _ => true
  | _ :: _, [] => false
  | p :: ps, c :: cs => (p.toLower = c.toLower) && ciPrefix ps cs

/-- Python substring containment (the `in` operator on str). -/
def containsChars (needle : List Char) : List Char → Bool
  | [] => needle.isEmpty
  | c :: rest => needle.isPrefixOf (c :: rest) || containsChars needle rest

def containsSub (hay needle : String) : Bool := containsChars needle.data hay.data

/-- Python str.upper (ASCII is all that occurs here). -/
def upperStr (s : String) : String := ⟨s.data.map Char.toUpper⟩

/-- Python str.lower. -/
def lowerStr (s : String) : String := ⟨s.data.map Char.toLower⟩

/-- Python str.rstrip(";"). -/
def rstripSemis (s : String) : String :=
  ⟨(s.data.reverse.dropWhile (· = ';')).reverse⟩

/-- Python slicing s[:n]. -/
def takeStr (n : Nat) (s : String) : String := ⟨s.data.take n⟩

/- ---------- a small backtracking regex engine ----------

   It interprets exactly the constructs appearing in the nine patterns of
   validate_and_fix_query: case-insensitive literals, the classes
   backslash-s / backslash-w / [^,] / [^:] / [><=] / [quote-or-dquote] with
   greedy or lazy repetition, word boundary, an optional capture group, a
   positive lookahead over a character set (also accepting end of input) and
   the negative lookahead (?!::). -/

inductive RE where
  | lit (s : String)
  | one (p : Char → Bool)
  | rep (p : Char → Bool) (min1 : Bool) (lazy : Bool)
  | bound
  | negLook (s : String)
  | look (p : Char → Bool) (allowEnd : Bool)
  | grp (n : Nat) (r : RE)
  | opt (r : RE)
  | cat (a b : RE)

/-- Captured groups: group index paired with the matched text. -/
abbrev Caps := List (Nat × String)

def atBoundary (s : List Char) (pos : Nat) : Bool :=
  let before := if pos = 0 then false else isWordChar (s.getD (pos - 1) ' ')
  let after := isWordChar (s.getD pos ' ')
  before != after

/-- All candidate end positions (with captures) for matching `r` at `pos`,
    in the backtracking engine's preference order: greedy repetitions try
    long matches first, lazy ones short first, an optional group prefers to
    participate.  The head of the list is the match Python's engine picks. -/
def reEnum (s : List Char) (r : RE) (pos : Nat) (caps : Caps) : List (Nat × Caps) :=
  match r with
  | .lit t => if ciPrefix t.data (s.drop pos) then [(pos + t.data.length, caps)] else []
  | .one p =>
      if pos < s.length then
        if p (s.getD pos ' ') then [(pos + 1, caps)] else []
      else []
  | .rep p min1 lz =>
      let L := ((s.drop pos).takeWhile p).length
      let lo := if min1 then 1 else 0
      if L < lo then []
      else
        let ends := (List.range (L - lo + 1)).map (fun i => pos + lo + i)
        let ends := if lz then ends else ends.reverse
        ends.map (fun e => (e, caps))
  | .bound => if atBoundary s pos then [(pos, caps)] else []
  | .negLook t => if ciPrefix t.data (s.drop pos) then [] else [(pos, caps)]
  | .look p allowEnd =>
      if pos < s.length then
        if p (s.getD pos ' ') then [(pos, caps)] else []
      else if allowEnd then [(pos, caps)] else []
  | .grp n r1 =>
      (reEnum s r1 pos caps).map
        (fun ec => (ec.1, (n, (⟨(s.drop pos).take (ec.1 - pos)⟩ : String)) :: ec.2))
  | .opt r1 => reEnum s r1 pos caps ++ [(pos, caps)]
  | .cat a b => (reEnum s a pos caps).flatMap (fun ec => reEnum s b ec.1 ec.2)

/-- One item of a re.sub replacement template: literal text or a group
    backreference (an unmatched group expands to the empty string, as in
    Python 3.5+). -/
inductive TItem where
  | str (s : String)
  | ref (n : Nat)

def capLookup (caps : Caps) (n : Nat) : String :=
  match caps.find? (fun pc => pc.1 = n) with
  | some pc => pc.2
  | none => ""

def expandTmpl (tmpl : List TItem) (caps : Caps) : List Char :=
  (tmpl.map (fun it =>
    match it with
    | .str t => t.data
    | .ref n => (capLookup caps n).data)).flatten

/-- The scan of re.sub: leftmost match wins, the replacement is emitted and
    scanning resumes at the match end.  All nine patterns of the source
    match at least one character, so the zero-width-match case of Python's
    scanner cannot arise; fuel (initially length+1) bounds the recursion. -/
def subLoop (s : List Char) (r : RE) (tmpl : List TItem) : Nat → Nat → List Char
  | 0, _ => []
  | fuel + 1, pos =>
    if pos < s.length then
      match (reEnum s r pos []).head? with
      | some ec =>
          if ec.1 > pos then expandTmpl tmpl ec.2 ++ subLoop s r tmpl fuel ec.1
          else s.getD pos ' ' :: subLoop s r tmpl fuel (pos + 1)
      | none => s.getD pos ' ' :: subLoop s r tmpl fuel (pos + 1)
    else []

/-- re.sub(pattern, repl, s, flags=re.IGNORECASE). -/
def reSub (r : RE) (tmpl : List TItem) (s : String) : String :=
  ⟨subLoop s.data r tmpl (s.data.length + 1) 0⟩

/- ---------- the Query Repair Engine: validate_and_fix_query ----------

   Each (pattern, replacement) pair below transliterates one regex of the
   source.  In the Python raw replacement strings the sequence
   backslash-quote is an unknown escape that re.sub leaves alone, so the
   produced text really contains a backslash before each quote; the
   templates reproduce that (written backslash backslash x27 in Lean). -/

def reCat (l : List RE) : RE := l.foldr RE.cat (RE.lit "")

/-- Greedy star of backslash-s. -/
def ws0 : RE := RE.rep pyIsSpace false false

/-- Greedy plus of backslash-s. -/
def ws1 : RE := RE.rep pyIsSpace true false

/-- The class [><=]. -/
def cmpChar (c : Char) : Bool := c = '>' || c = '<' || c = '='

/-- The class of a quote or a double quote. -/
def quoteCls (c : Char) : Bool := c = quoteChar || c = '"'

/-- Pattern: SELECT backslash-s+ ([^,]* , backslash-s*)? final_status backslash-b -/
def patSelFinal : RE :=
  reCat [.lit "SELECT", ws1,
         .opt (.grp 1 (reCat [.rep (fun c => c ≠ ',') false false, .lit ",", ws0])),
         .lit "final_status", .bound]

def repSelFinal : List TItem :=
  [.str "SELECT ", .ref 1,
   .str "CASE WHEN event_type = \\\x27SettlementConfirmed\\\x27 THEN \\\x27SUCCESSFUL\\\x27 ELSE \\\x27FAILED\\\x27 END as final_status"]

/-- Pattern: WHERE backslash-s+ final_status backslash-s* = backslash-s* [quote] (backslash-w+) [quote] -/
def patWhereFinal : RE :=
  reCat [.lit "WHERE", ws1, .lit "final_status", ws0, .lit "=", ws0,
         .one quoteCls, .grp 1 (.rep isWordChar true false), .one quoteCls]

def repWhereFinal : List TItem :=
  [.str "WHERE (CASE WHEN event_type = \\\x27SettlementConfirmed\\\x27 THEN \\\x27SUCCESSFUL\\\x27 ELSE \\\x27FAILED\\\x27 END) = \\\x27",
   .ref 1, .str "\\\x27"]

/-- Pattern: ORDER BY backslash-s+ final_status backslash-b -/
def patOrderFinal : RE := reCat [.lit "ORDER BY", ws1, .lit "final_status", .bound]

def repOrderFinal : List TItem :=
  [.str "ORDER BY (CASE WHEN event_type = \\\x27SettlementConfirmed\\\x27 THEN \\\x27SUCCESSFUL\\\x27 ELSE \\\x27FAILED\\\x27 END)"]

/-- Pattern: WHERE backslash-s+ success_rate backslash-s* [><=] -/
def patWhereRate : RE := reCat [.lit "WHERE", ws1, .lit "success_rate", ws0, .one cmpChar]

def repWhereRate : List TItem := [.str "WHERE (SELECT success_rate FROM transaction_summary)"]

/-- Pattern: WHERE backslash-s+ count backslash-s* [><=] -/
def patWhereCount : RE := reCat [.lit "WHERE", ws1, .lit "count", ws0, .one cmpChar]

def repWhereCount : List TItem := [.str "WHERE transaction_count"]

/-- Pattern: FROM backslash-s+ transaction_summary backslash-b -/
def patFromSummary : RE := reCat [.lit "FROM", ws1, .lit "transaction_summary", .bound]

def repFromSummary : List TItem :=
  [.str "FROM (WITH latest_events AS (SELECT *, ROW_NUMBER() OVER (PARTITION BY transaction_id ORDER BY timestamp::timestamptz DESC) as rn FROM transactions) SELECT COUNT(*) as total_transactions FROM latest_events WHERE rn = 1) as transaction_summary"]

/-- Pattern: backslash-b timestamp backslash-s* ([><=]+) backslash-s* ([^:]+?)
    followed by the lookahead on whitespace, end, semicolon or closing paren. -/
def patTsCmp : RE :=
  reCat [.bound, .lit "timestamp", ws0, .grp 1 (.rep cmpChar true false), ws0,
         .grp 2 (.rep (fun c => c ≠ ':') true true),
         .look (fun c => pyIsSpace c || c = ';' || c = ')') true]

def repTsCmp : List TItem := [.str "timestamp::timestamptz ", .ref 1, .str " ", .ref 2]

/-- Pattern: ORDER BY backslash-s+ timestamp backslash-b (?!::) -/
def patOrderTs : RE := reCat [.lit "ORDER BY", ws1, .lit "timestamp", .bound, .negLook "::"]

def repOrderTs : List TItem := [.str "ORDER BY timestamp::timestamptz"]

/-- Pattern: GROUP BY backslash-s+ timestamp backslash-b (?!::) -/
def patGroupTs : RE := reCat [.lit "GROUP BY", ws1, .lit "timestamp", .bound, .negLook "::"]

def repGroupTs : List TItem := [.str "GROUP BY timestamp::timestamptz"]

/-- The common_fixes list of the source, in order. -/
def common_fixes : List (RE × List TItem) :=
  [(patSelFinal, repSelFinal), (patWhereFinal, repWhereFinal), (patOrderFinal, repOrderFinal),
   (patWhereRate, repWhereRate), (patWhereCount, repWhereCount), (patFromSummary, repFromSummary)]

/-- The timestamp_fixes list of the source, in order. -/
def timestamp_fixes : List (RE × List TItem) :=
  [(patTsCmp, repTsCmp), (patOrderTs, repOrderTs), (patGroupTs, repGroupTs)]

/-- queries.py, validate_and_fix_query: applies common_fixes then
    timestamp_fixes, each by case-insensitive re.sub. -/
def validate_and_fix_query (sql_query : String) : String :=
  let fixed := common_fixes.foldl (fun q pr => reSub pr.1 pr.2 q) sql_query
  timestamp_fixes.foldl (fun q pr => reSub pr.1 pr.2 q) fixed

/- ---------- bounded executor and database execution ---------- -/

/-- Modelled from the spec: the configured timeouts of backend/api/config.py
    (the config module is not under src/).  Their numeric values are
    irrelevant to this embedding: an operation exceeding its bound is
    modelled as CoOutcome.hang. -/
def AI_AGENT_TIMEOUT : Nat := 30

/-- Modelled from the spec: see AI_AGENT_TIMEOUT. -/
def DATABASE_TIMEOUT : Nat := 30

/-- queries.py, with_timeout: asyncio.wait_for plus conversion of
    asyncio.TimeoutError into HTTPException 408 with the operation name in
    the detail.  A TimeoutError raised by the wrapped coroutine itself is
    caught by the same except clause. -/
def with_timeout (co : CoOutcome α) (timeout_seconds : Nat) (operation_name : String) :
    Except PyErr α :=
  let _ := timeout_seconds
  match co with
  | .ret a => .ok a
  | .raise .timeoutErr =>
      .error (.http 408 (operation_name ++ " timed out. Please try a simpler query or check your connection."))
  | .raise e => .error e
  | .hang =>
      .error (.http 408 (operation_name ++ " timed out. Please try a simpler query or check your connection."))

/-- A database row as produced by dict(row): field name to value. -/
abbrev Row := List (String × String)

/-- The database driver as seen by execute_query: acquiring a connection
    may fail, and conn.fetch on a statement returns rows, raises, or hangs.
    Connection close errors are swallowed by the source (try close except
    pass), so close is not modelled as fallible. -/
structure DbEnv where
  connect : Except PyErr Unit
  fetch : String → CoOutcome (List Row)

/-- Connection lifecycle events of one execute_query call. -/
inductive ConnEv where
  | acquire
  | close
deriving DecidableEq

/-- Result of the embedded execute_query: the returned-or-raised value, the
    connection events in order, and the statement passed to conn.fetch when
    that point was reached. -/
structure ExecResult where
  result : Except PyErr (List Row)
  connEvents : List ConnEv
  fetched : Option String

/-- queries.py lines 60-63: add LIMIT unless "LIMIT" or "COUNT" occurs in
    the uppercased statement. -/
def limitedQuery (maxResults : Nat) (sql : String) : String :=
  if !containsSub (upperStr sql) "LIMIT" && !containsSub (upperStr sql) "COUNT" then
    rstripSemis sql ++ " LIMIT " ++ toString maxResults ++ ";"
  else sql

/-- The detail string of the stale-computed-column 400 raised by
    execute_query (queries.py line 88). -/
def staleDetail : String :=
  "Query references a computed column from previous conversation. Please rephrase your question - I\x27ll generate a fresh query with proper column references."

/-- queries.py lines 75-91: the except chain of execute_query.  A bare
    asyncio.TimeoutError maps to 408; any other exception (including the
    HTTPException produced by with_timeout) is rendered with str(e) and
    mapped to the stale-computed-column 400 when it names a computed column
    inside a "column ... does not exist" message, else to a 500. -/
def translateDbError (e : PyErr) : PyErr :=
  match e with
  | .timeoutErr => .http 408 "Database query timed out. Please try a simpler query."
  | e =>
      let low := lowerStr (errStr e)
      if containsSub low "column" && containsSub low "does not exist" &&
         (containsSub low "final_status" || containsSub low "success_rate" || containsSub low "count") then
        .http 400 staleDetail
      else
        .http 500 ("Failed to execute query: " ++ errStr e)

/-- queries.py, execute_query: acquire a connection, bound the fetch of the
    LIMIT-adjusted statement, translate errors, and close the connection in
    the finally block on every exit path (when the connect itself failed the
    local conn is still None and no close is attempted). -/
def execute_query (db : DbEnv) (maxResults : Nat) (sql : String) : ExecResult :=
  match db.connect with
  | .error e => { result := .error (translateDbError e), connEvents := [], fetched := none }
  | .ok _ =>
      let lim := limitedQuery maxResults sql
      match with_timeout (db.fetch lim) DATABASE_TIMEOUT "Database query execution" with
      | .ok rows =>
          { result := .ok rows, connEvents := [.acquire, .close], fetched := some lim }
      | .error e =>
          { result := .error (translateDbError e), connEvents := [.acquire, .close], fetched := some lim }

/-- A connection trace leaks nothing when every acquire is matched by a
    close and no connection is left open at the end. -/
def noLeak (evs : List ConnEv) : Bool :=
  (evs.count .acquire == evs.count .close) && (evs.getLast? ≠ some .acquire)

/-- Modelled from the spec: "appends a row-count LIMIT clause ... when
    absent and the statement is not itself a count-style aggregate", read
    over SQL keywords: the statement has a LIMIT clause when LIMIT occurs as
    a whole word, and is a count-style aggregate when COUNT occurs as a
    whole word.  Used only to compare the spec wording with the source. -/
def specShouldAppendLimit (sql : String) : Bool :=
  let toks := ((upperStr sql).data.map (fun c => if isWordChar c then c else ' ')).splitOn ' '
  let hasTok (w : String) : Bool := toks.any (fun t => t = w.data)
  !hasTok "LIMIT" && !hasTok "COUNT"

/- ---------- chat service data model (models/schemas.py shapes) ---------- -/

/-- An opaque conversation message (pydantic-ai message contents are never
    inspected by the service code). -/
abbrev Msg := String

/-- Result of query_type_agent.run: .data.query_type. -/
structure QTRes where
  query_type : String
deriving DecidableEq

/-- Result of sql_agent.run: .data.sql_query plus .all_messages(). -/
structure SqlRes where
  sql_query : String
  msgs : List Msg
deriving DecidableEq

/-- schemas.DataSummaryResponse. -/
structure DataSummaryResponse where
  summary : String
  key_insights : List String
  recommendation : Option String
  transaction_status : Option String
deriving DecidableEq

/-- Result of summary_agent.run: .data plus .all_messages(). -/
structure SumRes where
  resp : DataSummaryResponse
  msgs : List Msg
deriving DecidableEq

/-- Result of response_summary_agent.run: .data.summary and str(.data.metadata). -/
structure RespSumRes where
  summary : String
  metadata : String
deriving DecidableEq

/-- The structured output of bar_chart_agent.run (.data may be None). -/
structure BarChartRes where
  chart_possible : Bool
  modified_sql : Option String
deriving DecidableEq

/-- The dict the service builds from the bar chart analysis, with
    chart_data or chart_data_error added afterwards. -/
structure BarChartDict where
  chart_possible : Bool
  modified_sql : Option String
  chart_data : Option (List Row)
  chart_data_error : Option String
deriving DecidableEq

/-- schemas.ChatResponse.  execution_time_ms is wall-clock in the source and
    is modelled as the constant 0. -/
structure ChatResponse where
  success : Bool
  chat_id : String
  query : String
  sql_query : String
  data : List Row
  summary : String
  insights : List String
  recommendation : Option String
  response_summary : Option String
  execution_time_ms : Nat
  record_count : Nat
  bar_chart : Option BarChartDict
deriving DecidableEq

/-- schemas.ChatQueryRequest (the fields the service reads). -/
structure Request where
  chat_type : String
  chat_id : Option String
  query : String
deriving DecidableEq

/-- Python truthiness of the optional chat_id (None and "" are falsy). -/
def truthyOpt : Option String → Bool
  | none => false
  | some s => s ≠ ""

/-- Python truthiness of an optional string field read with .get. -/
def truthyStrOpt : Option String → Bool
  | none => false
  | some s => s ≠ ""

/-- The collaborators of one turn, one oracle per call site (each site is
    awaited at most once per turn); sql_agent.run is shared between the
    initial and the fresh generation and is keyed by the message_history
    argument it receives (none models the call without history, i.e. on the
    original augmented prompt only). -/
structure Env where
  create_new_chat : String
  chat_exists : Except PyErr Bool
  load_messages : Except PyErr (List Msg)
  query_type_run : CoOutcome QTRes
  sql_agent_run : Option (List Msg) → CoOutcome SqlRes
  db : DbEnv
  maxResults : Nat
  summarize_data : CoOutcome SumRes
  summarize_nodata : CoOutcome SumRes
  bar_chart_run : CoOutcome (Option BarChartRes)
  resp_summary_main : CoOutcome RespSumRes
  resp_summary_simple : CoOutcome RespSumRes
  simple_run : CoOutcome SumRes
  update_history_main : Except PyErr Unit
  update_history_simple : Except PyErr Unit

/- ---------- pipeline stages (chat_service.py) ---------- -/

/-- chat_service.py lines 22-36: create or look up the chat and load its
    message history; the combined existence check (database or in-memory
    cache) is one oracle.  The 400 and 404 raised here are HTTPExceptions
    and so are re-raised by the orchestrator boundary. -/
def setupStage (createO : String) (existsO : Except PyErr Bool)
    (loadO : Except PyErr (List Msg)) (req : Request) : Except PyErr (String × List Msg) :=
  if req.chat_type = "new" then .ok (createO, [])
  else if !truthyOpt req.chat_id then
    .error (.http 400 "chat_id is required when chat_type is \x27existing\x27")
  else
    let cid := req.chat_id.getD ""
    match existsO with
    | .error e => .error e
    | .ok ex =>
        if !ex then .error (.http 404 ("Chat " ++ cid ++ " not found"))
        else
          match loadO with
          | .error e => .error e
          | .ok hist => .ok (cid, hist)

/-- chat_service.py lines 38-51: classification; a 408 HTTPException or any
    non-HTTP exception falls back to "sql", a non-408 HTTPException is
    re-raised. -/
def classifyStage (qtO : CoOutcome QTRes) : Except PyErr String :=
  match with_timeout qtO AI_AGENT_TIMEOUT "Query type classification" with
  | .ok r => .ok r.query_type
  | .error (.http s d) => if s == 408 then .ok "sql" else .error (.http s d)
  | .error _ => .ok "sql"

/-- chat_service.py lines 62-81: SQL generation, with history when the
    loaded history is non-empty; a 408 is re-raised with the user-facing
    detail, everything else propagates. -/
def genStage (sqlA : Option (List Msg) → CoOutcome SqlRes) (hist : List Msg) :
    Except PyErr SqlRes :=
  let genCo := if !hist.isEmpty then sqlA (some hist) else sqlA none
  match with_timeout genCo AI_AGENT_TIMEOUT "SQL generation" with
  | .ok r => .ok r
  | .error (.http s d) =>
      if s == 408 then
        .error (.http 408 "AI query generation timed out. Please try a simpler question.")
      else .error (.http s d)
  | .error e => .error e

/-- External calls observable in the execution-with-retry segment. -/
inductive Ev where
  | execEv (sql : String)
  | freshGenEv
deriving DecidableEq

def countFreshGen : List Ev → Nat
  | [] => 0
  | .freshGenEv :: t => countFreshGen t + 1
  | _ :: t => countFreshGen t

/-- chat_service.py line 92: the retry condition on a caught HTTPException. -/
def isStaleColumnError : PyErr → Bool
  | .http 400 d => containsSub d "computed column"
  | _ => false

/-- chat_service.py lines 89-104: execute the (already repaired) query; on
    the stale-computed-column 400, regenerate once from the original
    augmented prompt without history, repair the fresh query and re-execute
    it; any other failure, and any failure of the retry itself, propagates. -/
def runExecWithRetry (db : DbEnv) (maxR : Nat)
    (sqlA : Option (List Msg) → CoOutcome SqlRes) (sqlq : String) :
    Except PyErr (List Row × String) × List Ev :=
  match (execute_query db maxR sqlq).result with
  | .ok data => (.ok (data, sqlq), [.execEv sqlq])
  | .error e =>
      if isStaleColumnError e then
        match with_timeout (sqlA none) AI_AGENT_TIMEOUT "Fresh SQL generation" with
        | .error e2 => (.error e2, [.execEv sqlq, .freshGenEv])
        | .ok fres =>
            let fixedq := validate_and_fix_query fres.sql_query
            match (execute_query db maxR fixedq).result with
            | .ok data => (.ok (data, fixedq), [.execEv sqlq, .freshGenEv, .execEv fixedq])
            | .error e2 => (.error e2, [.execEv sqlq, .freshGenEv, .execEv fixedq])
      else (.error e, [.execEv sqlq])

/-- chat_service.py lines 124-167: bar chart derivation.  Any failure of the
    agent call yields None; when the analysis says the data is chartable and
    supplies a (truthy) modified query, that query is repaired and executed,
    attaching chart_data on success and chart_data_error on failure; every
    exception is caught inside this block. -/
def chartStage (db : DbEnv) (maxR : Nat) (chartO : CoOutcome (Option BarChartRes)) :
    Option BarChartDict :=
  match with_timeout chartO AI_AGENT_TIMEOUT "Bar chart analysis" with
  | .error _ => none
  | .ok none => none
  | .ok (some r) =>
      let d : BarChartDict :=
        { chart_possible := r.chart_possible, modified_sql := r.modified_sql,
          chart_data := none, chart_data_error := none }
      if d.chart_possible && truthyStrOpt d.modified_sql then
        match (execute_query db maxR (validate_and_fix_query (d.modified_sql.getD ""))).result with
        | .ok rows => some { d with chart_data := some rows }
        | .error e => some { d with chart_data_error := some (errStr e) }
      else some d

/-- chat_service.py lines 169-174: the locally synthesized no-data summary. -/
def noDataSummary : DataSummaryResponse :=
  { summary := "No data found matching the query criteria.",
    key_insights := ["No transactions found for the specified criteria"],
    recommendation := some "Try adjusting search parameters or check transaction IDs",
    transaction_status := none }

/-- chat_service.py lines 183-188: the summarization-timeout fallback. -/
def summaryTimeoutFallback (n : Nat) : DataSummaryResponse :=
  { summary := "Query executed successfully. Retrieved " ++ toString n ++ " records.",
    key_insights := ["Found " ++ toString n ++ " matching records"],
    recommendation := some "Data retrieved successfully. Summary generation timed out.",
    transaction_status := none }

/-- chat_service.py lines 195-208: the success response of the SQL path. -/
def mkMainResponse (chat_id q sqlq : String) (data : List Row)
    (sr : DataSummaryResponse) (bar : Option BarChartDict) : ChatResponse :=
  { success := true, chat_id := chat_id, query := q, sql_query := sqlq, data := data,
    summary := sr.summary, insights := sr.key_insights, recommendation := sr.recommendation,
    response_summary := none, execution_time_ms := 0, record_count := data.length,
    bar_chart := bar }

/-- chat_service.py lines 210-235 and 312-336: response compaction never
    fails the turn; a 408 yields a truncated excerpt of the primary summary,
    a non-408 HTTPException a failure notice, any other exception an error
    notice. -/
def compactionStage (respO : CoOutcome RespSumRes) (primary : String) : String :=
  match with_timeout respO AI_AGENT_TIMEOUT "Response summary generation" with
  | .ok r => r.summary ++ " " ++ r.metadata
  | .error (.http s d) =>
      if s == 408 then "Summary: " ++ takeStr 100 primary ++ "... (Summary generation timed out)"
      else "Summary generation failed: " ++ errStr (.http s d)
  | .error e => "Summary generation error: " ++ errStr e

/-- The message of the UnboundLocalError raised by line 194 of
    chat_service.py when bar_chart_response was never assigned. -/
def unboundBarChartMsg : String :=
  "cannot access local variable \x27bar_chart_response\x27 where it is not associated with a value"

/-- chat_service.py lines 106-245: summarization (with the no-data synthesis
    and the 408 fallback), chart derivation, response construction,
    compaction and the swallowed history update.  bar_chart_response is a
    Python local assigned only on the non-empty-data path whose
    summarization call returned; print(bar_chart_response) on line 194
    raises UnboundLocalError whenever it was never assigned (zero rows, or
    summarization timeout), modelled by the none case of barVar. -/
def afterExec (summD summN : CoOutcome SumRes) (chartO : CoOutcome (Option BarChartRes))
    (db : DbEnv) (maxR : Nat) (respO : CoOutcome RespSumRes) (updO : Except PyErr Unit)
    (q chat_id sqlq : String) (data : List Row) : Except PyErr ChatResponse :=
  let tryRes : Except PyErr (DataSummaryResponse × Option (Option BarChartDict)) :=
    if !data.isEmpty then
      match with_timeout summD AI_AGENT_TIMEOUT "AI summary generation" with
      | .ok sres => .ok (sres.resp, some (chartStage db maxR chartO))
      | .error e => .error e
    else
      match with_timeout summN AI_AGENT_TIMEOUT "AI summary generation" with
      | .ok _ => .ok (noDataSummary, none)
      | .error e => .error e
  let caught : Except PyErr (DataSummaryResponse × Option (Option BarChartDict)) :=
    match tryRes with
    | .error (.http s d) =>
        if s == 408 then .ok (summaryTimeoutFallback data.length, none)
        else .error (.http s d)
    | other => other
  match caught with
  | .error e => .error e
  | .ok (sumResp, barVar) =>
      match barVar with
      | none => .error (.exc unboundBarChartMsg)
      | some bar =>
          let resp0 := mkMainResponse chat_id q sqlq data sumResp bar
          let rs := compactionStage respO sumResp.summary
          let _ := updO
          .ok { resp0 with response_summary := some rs }

/-- chat_service.py lines 56-245: the SQL path after classification. -/
def sqlPath (sqlA : Option (List Msg) → CoOutcome SqlRes) (db : DbEnv) (maxR : Nat)
    (summD summN : CoOutcome SumRes) (chartO : CoOutcome (Option BarChartRes))
    (respO : CoOutcome RespSumRes) (updO : Except PyErr Unit)
    (q chat_id : String) (hist : List Msg) : Except PyErr ChatResponse :=
  match genStage sqlA hist with
  | .error e => .error e
  | .ok sqlRes =>
      let validated := validate_and_fix_query sqlRes.sql_query
      let sqlq := if validated ≠ sqlRes.sql_query then validated else sqlRes.sql_query
      match (runExecWithRetry db maxR sqlA sqlq).1 with
      | .error e => .error e
      | .ok (data, finalSql) =>
          afterExec summD summN chartO db maxR respO updO q chat_id finalSql data

/-- chat_service.py lines 286-291: the simple-path timeout fallback. -/
def simpleFallbackSummary : DataSummaryResponse :=
  { summary := "I\x27m here to help with your payment and transaction questions. Could you please rephrase your question?",
    key_insights := ["Response generation timed out"],
    recommendation := some "Please try asking your question again or be more specific.",
    transaction_status := none }

/-- chat_service.py lines 297-310: the success response of the simple path. -/
def mkSimpleResponse (chat_id q : String) (sr : DataSummaryResponse) : ChatResponse :=
  { success := true, chat_id := chat_id, query := q, sql_query := "", data := [],
    summary := sr.summary, insights := sr.key_insights, recommendation := sr.recommendation,
    response_summary := none, execution_time_ms := 0, record_count := 0, bar_chart := none }

/-- chat_service.py lines 353-366: the failure response of the simple path. -/
def mkSimpleFailure (chat_id q : String) (e : PyErr) : ChatResponse :=
  { success := false, chat_id := chat_id, query := q, sql_query := "", data := [],
    summary := "Error handling simple query: " ++ errStr e, insights := [],
    recommendation := none, response_summary := none, execution_time_ms := 0,
    record_count := 0, bar_chart := none }

/-- chat_service.py lines 267-366: handle_simple_llm_query_service.  Its own
    boundary re-raises HTTPExceptions (including the non-408 ones re-raised
    by the inner handler) and converts any other exception into a
    success=false response. -/
def simpleService (simpleO : CoOutcome SumRes) (respO : CoOutcome RespSumRes)
    (updO : Except PyErr Unit) (q chat_id : String) : Except PyErr ChatResponse :=
  let inner : Except PyErr ChatResponse :=
    match
      (match with_timeout simpleO AI_AGENT_TIMEOUT "Simple query response generation" with
       | .ok sres => .ok sres.resp
       | .error (.http s d) =>
           if s == 408 then .ok simpleFallbackSummary else .error (.http s d)
       | .error e => .error e :
        Except PyErr DataSummaryResponse) with
    | .error e => .error e
    | .ok sresp =>
        let resp0 := mkSimpleResponse chat_id q sresp
        let rs := compactionStage respO sresp.summary
        let _ := updO
        .ok { resp0 with response_summary := some rs }
  match inner with
  | .ok r => .ok r
  | .error (.http s d) => .error (.http s d)
  | .error e => .ok (mkSimpleFailure chat_id q e)

/-- chat_service.py lines 249-265: the failure response of the outer
    boundary ("zeroed metrics"). -/
def mkFailureResponse (req : Request) (e : PyErr) : ChatResponse :=
  { success := false,
    chat_id := if truthyOpt req.chat_id then req.chat_id.getD "" else "unknown",
    query := req.query, sql_query := "", data := [],
    summary := "Error: " ++ errStr e, insights := [], recommendation := none,
    response_summary := none, execution_time_ms := 0, record_count := 0, bar_chart := none }

/-- chat_service.py lines 21-245: the body of the outer try. -/
def mainBody (env : Env) (req : Request) : Except PyErr ChatResponse :=
  match setupStage env.create_new_chat env.chat_exists env.load_messages req with
  | .error e => .error e
  | .ok (chat_id, hist) =>
      match classifyStage env.query_type_run with
      | .error e => .error e
      | .ok qt =>
          if qt = "simple" then
            simpleService env.simple_run env.resp_summary_simple env.update_history_simple
              req.query chat_id
          else
            sqlPath env.sql_agent_run env.db env.maxResults env.summarize_data
              env.summarize_nodata env.bar_chart_run env.resp_summary_main
              env.update_history_main req.query chat_id hist

/-- chat_service.py lines 247-265: except HTTPException re-raises, except
    Exception converts into a success=false response. -/
def orchestratorBoundary (req : Request) (x : Except PyErr ChatResponse) :
    Except PyErr ChatResponse :=
  match x with
  | .ok r => .ok r
  | .error (.http s d) => .error (.http s d)
  | .error e => .ok (mkFailureResponse req e)

/-- chat_service.py, handle_chat_query_service. -/
def handle_chat_query_service (env : Env) (req : Request) : Except PyErr ChatResponse :=
  orchestratorBoundary req (mainBody env req)

/- ---------- decidable checkers for the claimed invariants ---------- -/

/-- Spec response invariant: record_count equals len(data), and
    success=false implies empty data and empty sql_query. -/
def respInvariantB (r : ChatResponse) : Bool :=
  (r.record_count == r.data.length) &&
  (r.success || (r.data.isEmpty && (r.sql_query == "") && (r.record_count == 0)))

def resultInvariantB : Except PyErr ChatResponse → Bool
  | .ok r => respInvariantB r
  | .error _ => true

/-- Every fault the orchestrator lets escape is an HTTPException (no raw
    generic exception or bare TimeoutError ever reaches the caller). -/
def onlyHttpFaultB : Except PyErr ChatResponse → Bool
  | .error (.http _ _) => true
  | .error _ => false
  | .ok _ => true

/-- chart_data and chart_data_error are never both present. -/
def chartExclusiveB : Option BarChartDict → Bool
  | none => true
  | some bc => !(bc.chart_data.isSome && bc.chart_data_error.isSome)

def respChartExclusiveB : Except PyErr ChatResponse → Bool
  | .ok r => chartExclusiveB r.bar_chart
  | .error _ => true

/-- A classification outcome covered by the fallback: timing out (hang, a
    bare TimeoutError, or a 408 HTTPException) or any non-HTTP exception. -/
def classifyFallbackOutcome : CoOutcome QTRes → Bool
  | .hang => true
  | .raise .timeoutErr => true
  | .raise (.http s _) => s == 408
  | .raise (.exc _) => true
  | .ret _ => false

/- ---------- concrete collaborators used by witnesses and counterexamples -/

def rowA : Row := [("transaction_id", "T1"), ("status", "SUCCESSFUL")]

/-- A database that always succeeds with one row. -/
def dbOk : DbEnv := { connect := .ok (), fetch := fun _ => .ret [rowA] }

/-- A database whose fetch reports a missing final_status column except for
    statements mentioning SELECT 2 (the fresh regeneration's query). -/
def dbStale : DbEnv :=
  { connect := .ok ()
    fetch := fun s =>
      if containsSub s "SELECT 2" then .ret [rowA]
      else .raise (.exc "column \x22final_status\x22 does not exist") }

def sumResOk : SumRes := { resp := { summary := "Summary text", key_insights := ["insight"], recommendation := none, transaction_status := none }, msgs := [] }

/-- A baseline environment in which every collaborator succeeds. -/
def envOk : Env :=
  { create_new_chat := "chat-1"
    chat_exists := .ok true
    load_messages := .ok []
    query_type_run := .ret { query_type := "sql" }
    sql_agent_run := fun _ => .ret { sql_query := "SELECT 1", msgs := [] }
    db := dbOk
    maxResults := 1000
    summarize_data := .ret sumResOk
    summarize_nodata := .ret sumResOk
    bar_chart_run := .ret none
    resp_summary_main := .ret { summary := "Compact", metadata := "meta" }
    resp_summary_simple := .ret { summary := "Compact", metadata := "meta" }
    simple_run := .ret sumResOk
    update_history_main := .ok ()
    update_history_simple := .ok () }

def reqNew : Request := { chat_type := "new", chat_id := none, query := "show transactions" }

/-- A database whose fetch raises a generic (non-column) execution error. -/
def dbBoom : DbEnv := { connect := .ok (), fetch := fun _ => .raise (.exc "boom") }

/-- A database returning zero rows for every statement. -/
def dbEmpty : DbEnv := { connect := .ok (), fetch := fun _ => .ret [] }

/-- envOk with a hanging data-summarization call. -/
def envSummaryHang : Env := { envOk with summarize_data := .hang }

/-- envOk over the zero-row database. -/
def envEmptyRows : Env := { envOk with db := dbEmpty }

/-- envOk over the generically failing database. -/
def envExecBoom : Env := { envOk with db := dbBoom }

/-- envOk with a data-summarization call raising a generic exception. -/
def envAgentBoom : Env := { envOk with summarize_data := .raise (.exc "agent blew up") }

/-- envOk with a classification call raising a non-408 HTTPException. -/
def envClassifyFail : Env :=
  { envOk with query_type_run := .raise (.http 500 "classification agent failure") }

/-- A bar-chart agent outcome reporting the data as chartable with a
    modified query, used to exercise the chart-SQL execution branch. -/
def chartPossibleRes : CoOutcome (Option BarChartRes) :=
  .ret (some { chart_possible := true, modified_sql := some "SELECT 3" })

/- ==================== theorems ==================== -/

set_option maxRecDepth 100000 in
set_option maxHeartbeats 1000000 in
/-- C1.  The Query Repair Engine is not idempotent: on the SQL string
    timestamp < timestamp < c the first application of the timestamp-cast
    rewrite consumes the second timestamp token as the lazily matched
    comparison operand, leaving it uncast, and the second application then
    rewrites it as well, so repair of repair differs from repair.  (The same
    happens with the SELECT final_status rewrite on
    SELECT final_status, final_status, whose optional group swallows the
    first occurrence.) -/
theorem C1_repair_not_idempotent :
    (validate_and_fix_query (validate_and_fix_query "timestamp < timestamp < c") ==
      validate_and_fix_query "timestamp < timestamp < c") = false := by
  decide

/-- C1 (amended).  The repair transformation is idempotent on every SQL
    string it already leaves unchanged: if no pattern rewrites s, applying
    the repair twice still changes nothing. -/
theorem C1_repair_idempotent_on_fixed_points (s : String)
    (h : validate_and_fix_query s = s) :
    validate_and_fix_query (validate_and_fix_query s) = validate_and_fix_query s := by
  rw [h]
  exact h

theorem C1_repair_idempotent_on_fixed_points_witness :
    validate_and_fix_query (validate_and_fix_query "SELECT 1") =
      validate_and_fix_query "SELECT 1" :=
  C1_repair_idempotent_on_fixed_points "SELECT 1" (by decide)

/-- C8.  The bounded executor returns the result of an operation completing
    within its bound unchanged, turns an exceeded bound into the typed 408
    condition whose detail carries the operation label, and execute_query
    balances every acquired connection with a close on every exit path
    (success, failure, or timeout). -/
theorem C8_bounded_executor :
    (∀ (α : Type) (a : α) (t : Nat) (n : String), with_timeout (.ret a) t n = .ok a) ∧
    (∀ (α : Type) (t : Nat) (n : String),
        with_timeout (.hang : CoOutcome α) t n =
          .error (.http 408 (n ++ " timed out. Please try a simpler query or check your connection."))) ∧
    (∀ db maxR sql, noLeak (execute_query db maxR sql).connEvents = true) := by
  refine ⟨fun _ _ _ _ => rfl, fun _ _ _ => rfl, fun db maxR sql => ?_⟩
  unfold execute_query
  split
  · rfl
  · dsimp only
    split <;> rfl

/-- C9.  The substring test of execute_query is not the claimed "has no
    LIMIT clause and is not a count-style aggregate" condition: the
    statement SELECT account FROM transactions has no LIMIT clause and no
    COUNT aggregate (so the claim requires a LIMIT to be appended), yet the
    code executes it unchanged because ACCOUNT contains the substring
    COUNT. -/
theorem C9_limit_condition_counterexample :
    (specShouldAppendLimit "SELECT account FROM transactions" &&
      (limitedQuery 1000 "SELECT account FROM transactions" ==
        "SELECT account FROM transactions")) = true := by
  decide

/-- C9 (amended).  When the connection is acquired, execute_query passes to
    conn.fetch exactly the original statement when the uppercased statement
    contains LIMIT or COUNT as a substring, and otherwise the statement with
    trailing semicolons stripped and a LIMIT clause appended. -/
theorem C9_limit_appending (db : DbEnv) (maxR : Nat) (sql : String)
    (h : db.connect = .ok ()) :
    (execute_query db maxR sql).fetched =
      some (if !containsSub (upperStr sql) "LIMIT" && !containsSub (upperStr sql) "COUNT"
            then rstripSemis sql ++ " LIMIT " ++ toString maxR ++ ";"
            else sql) := by
  unfold execute_query limitedQuery
  rw [h]
  dsimp only
  split <;> rfl

theorem C9_limit_appending_witness :
    (execute_query dbOk 1000 "SELECT 1").fetched = some "SELECT 1 LIMIT 1000;" := by
  rw [C9_limit_appending dbOk 1000 "SELECT 1" rfl]
  decide

/-- C2.  When execution of the repaired query fails with the
    stale-computed-column condition, the pipeline regenerates exactly once
    through the sql agent called without conversation history, repairs the
    fresh query, and re-executes exactly that repaired fresh query; the
    retry's own outcome (success, or a second failure of any kind including
    the same stale condition) is final and propagates with no further
    regeneration. -/
theorem C2_stale_column_retry (db : DbEnv) (maxR : Nat)
    (sqlA : Option (List Msg) → CoOutcome SqlRes) (sqlq : String) (e0 : PyErr)
    (h1 : (execute_query db maxR sqlq).result = .error e0)
    (h2 : isStaleColumnError e0 = true) :
    countFreshGen (runExecWithRetry db maxR sqlA sqlq).2 = 1 ∧
    (∀ e2, with_timeout (sqlA none) AI_AGENT_TIMEOUT "Fresh SQL generation" = .error e2 →
        (runExecWithRetry db maxR sqlA sqlq).1 = .error e2) ∧
    (∀ fres, with_timeout (sqlA none) AI_AGENT_TIMEOUT "Fresh SQL generation" = .ok fres →
        (runExecWithRetry db maxR sqlA sqlq).2 =
          [.execEv sqlq, .freshGenEv, .execEv (validate_and_fix_query fres.sql_query)] ∧
        (∀ rows,
            (execute_query db maxR (validate_and_fix_query fres.sql_query)).result = .ok rows →
            (runExecWithRetry db maxR sqlA sqlq).1 =
              .ok (rows, validate_and_fix_query fres.sql_query)) ∧
        (∀ e2,
            (execute_query db maxR (validate_and_fix_query fres.sql_query)).result = .error e2 →
            (runExecWithRetry db maxR sqlA sqlq).1 = .error e2)) := by
  unfold runExecWithRetry
  rw [h1]
  dsimp only
  simp only [h2, eq_self_iff_true, if_true]
  cases hW : with_timeout (sqlA none) AI_AGENT_TIMEOUT "Fresh SQL generation" with
  | error e2 =>
      dsimp only
      refine ⟨rfl, ?_, ?_⟩
      · intro e hh
        cases hh
        rfl
      · intro fres hh
        cases hh
  | ok fres =>
      dsimp only
      cases hE : (execute_query db maxR (validate_and_fix_query fres.sql_query)).result with
      | ok rows =>
          dsimp only
          refine ⟨rfl, ?_, ?_⟩
          · intro e hh
            cases hh
          · intro f hf
            cases hf
            refine ⟨rfl, ?_, ?_⟩
            · intro rows2 hr
              rw [hE] at hr
              cases hr
              rfl
            · intro e2 he
              rw [hE] at he
              cases he
      | error e2 =>
          dsimp only
          refine ⟨rfl, ?_, ?_⟩
          · intro e hh
            cases hh
          · intro f hf
            cases hf
            refine ⟨rfl, ?_, ?_⟩
            · intro rows2 hr
              rw [hE] at hr
              cases hr
            · intro e3 he
              rw [hE] at he
              cases he
              rfl

theorem C2_stale_column_retry_witness :
    countFreshGen
      (runExecWithRetry dbStale 1000 (fun _ => .ret { sql_query := "SELECT 2", msgs := [] })
        "SELECT 1").2 = 1 :=
  (C2_stale_column_retry dbStale 1000 (fun _ => .ret { sql_query := "SELECT 2", msgs := [] })
    "SELECT 1" (.http 400 staleDetail) rfl rfl).1

/- ---------- helper lemmas: response invariants along the pipeline ------- -/

theorem afterExec_inv (summD summN : CoOutcome SumRes) (chartO : CoOutcome (Option BarChartRes))
    (db : DbEnv) (maxR : Nat) (respO : CoOutcome RespSumRes) (updO : Except PyErr Unit)
    (q cid sqlq : String) (data : List Row) :
    resultInvariantB (afterExec summD summN chartO db maxR respO updO q cid sqlq data) = true := by
  unfold afterExec
  dsimp only
  repeat' split
  all_goals simp [resultInvariantB, respInvariantB, mkMainResponse]

theorem sqlPath_inv (sqlA : Option (List Msg) → CoOutcome SqlRes) (db : DbEnv) (maxR : Nat)
    (summD summN : CoOutcome SumRes) (chartO : CoOutcome (Option BarChartRes))
    (respO : CoOutcome RespSumRes) (updO : Except PyErr Unit)
    (q cid : String) (hist : List Msg) :
    resultInvariantB
      (sqlPath sqlA db maxR summD summN chartO respO updO q cid hist) = true := by
  unfold sqlPath
  split
  · rfl
  · dsimp only
    split
    · rfl
    · apply afterExec_inv

theorem simpleService_inv (simpleO : CoOutcome SumRes) (respO : CoOutcome RespSumRes)
    (updO : Except PyErr Unit) (q cid : String) :
    resultInvariantB (simpleService simpleO respO updO q cid) = true := by
  unfold simpleService
  cases hS : with_timeout simpleO AI_AGENT_TIMEOUT "Simple query response generation" with
  | ok sres => rfl
  | error e =>
      cases e with
      | http s d =>
          rcases eq_or_ne s 408 with h48 | h48
          · subst h48
            rfl
          · have hb : (s == 408) = false := beq_eq_false_iff_ne.mpr h48
            simp only [hb]
            rfl
      | timeoutErr => rfl
      | exc m => rfl

theorem mainBody_inv (env : Env) (req : Request) :
    resultInvariantB (mainBody env req) = true := by
  unfold mainBody
  split
  · rfl
  · split
    · rfl
    · split
      · apply simpleService_inv
      · apply sqlPath_inv

/- ---------- helper lemmas: chart exclusivity along the pipeline --------- -/

theorem chartStage_exclusive (db : DbEnv) (maxR : Nat)
    (chartO : CoOutcome (Option BarChartRes)) :
    chartExclusiveB (chartStage db maxR chartO) = true := by
  unfold chartStage
  dsimp only
  repeat' split
  all_goals simp [chartExclusiveB]

theorem afterExec_chartExcl (summD summN : CoOutcome SumRes)
    (chartO : CoOutcome (Option BarChartRes)) (db : DbEnv) (maxR : Nat)
    (respO : CoOutcome RespSumRes) (updO : Except PyErr Unit)
    (q cid sqlq : String) (data : List Row) :
    respChartExclusiveB (afterExec summD summN chartO db maxR respO updO q cid sqlq data) = true := by
  unfold afterExec
  cases data with
  | nil =>
      cases hN : with_timeout summN AI_AGENT_TIMEOUT "AI summary generation" with
      | ok s => rfl
      | error e =>
          cases e with
          | http s d =>
              rcases eq_or_ne s 408 with h48 | h48
              · subst h48
                rfl
              · have hb : (s == 408) = false := beq_eq_false_iff_ne.mpr h48
                simp [hb, respChartExclusiveB]
          | timeoutErr => rfl
          | exc m => rfl
  | cons a t =>
      cases hS : with_timeout summD AI_AGENT_TIMEOUT "AI summary generation" with
      | ok sres =>
          simpa [respChartExclusiveB, mkMainResponse] using chartStage_exclusive db maxR chartO
      | error e =>
          cases e with
          | http s d =>
              rcases eq_or_ne s 408 with h48 | h48
              · subst h48
                rfl
              · have hb : (s == 408) = false := beq_eq_false_iff_ne.mpr h48
                simp [hb, respChartExclusiveB]
          | timeoutErr => rfl
          | exc m => rfl

theorem sqlPath_chartExcl (sqlA : Option (List Msg) → CoOutcome SqlRes) (db : DbEnv)
    (maxR : Nat) (summD summN : CoOutcome SumRes) (chartO : CoOutcome (Option BarChartRes))
    (respO : CoOutcome RespSumRes) (updO : Except PyErr Unit)
    (q cid : String) (hist : List Msg) :
    respChartExclusiveB
      (sqlPath sqlA db maxR summD summN chartO respO updO q cid hist) = true := by
  unfold sqlPath
  split
  · rfl
  · dsimp only
    split
    · rfl
    · apply afterExec_chartExcl

theorem simpleService_chartExcl (simpleO : CoOutcome SumRes) (respO : CoOutcome RespSumRes)
    (updO : Except PyErr Unit) (q cid : String) :
    respChartExclusiveB (simpleService simpleO respO updO q cid) = true := by
  unfold simpleService
  cases hS : with_timeout simpleO AI_AGENT_TIMEOUT "Simple query response generation" with
  | ok sres => rfl
  | error e =>
      cases e with
      | http s d =>
          rcases eq_or_ne s 408 with h48 | h48
          · subst h48
            rfl
          · have hb : (s == 408) = false := beq_eq_false_iff_ne.mpr h48
            simp only [hb]
            rfl
      | timeoutErr => rfl
      | exc m => rfl

theorem mainBody_chartExcl (env : Env) (req : Request) :
    respChartExclusiveB (mainBody env req) = true := by
  unfold mainBody
  split
  · rfl
  · split
    · rfl
    · split
      · apply simpleService_chartExcl
      · apply sqlPath_chartExcl

/-- C7.  Every ChatResponse the pipeline produces, on the SQL path, the
    simple path, success or failure, satisfies record_count = len(data), and
    success=false implies data = [] and sql_query = "". -/
theorem C7_response_invariants (env : Env) (req : Request) :
    resultInvariantB (handle_chat_query_service env req) = true := by
  unfold handle_chat_query_service orchestratorBoundary
  have h := mainBody_inv env req
  cases hm : mainBody env req with
  | ok r =>
      rw [hm] at h
      exact h
  | error e => cases e <;> simp [resultInvariantB, respInvariantB, mkFailureResponse]

/-- C3.  The classification counterexample: a non-408 HTTPException raised
    by the classification call is re-raised and terminates the turn with a
    raw fault, contradicting the claim that every classification failure
    proceeds with query type sql. -/
theorem C3_classification_http_error_terminates :
    handle_chat_query_service envClassifyFail reqNew =
      .error (.http 500 "classification agent failure") := by
  rfl

/-- C3 (amended).  When the classification call times out (hang, a bare
    TimeoutError, or a 408 HTTPException) or raises any non-HTTP exception,
    the turn behaves exactly as if classification had returned "sql": it is
    never routed to the simple path and never terminated by the failure.  A
    non-408 HTTPException, however, is re-raised (see the counterexample). -/
theorem C3_classification_fallback (env : Env) (req : Request) (co : CoOutcome QTRes)
    (h : classifyFallbackOutcome co = true) :
    handle_chat_query_service { env with query_type_run := co } req =
      handle_chat_query_service { env with query_type_run := .ret { query_type := "sql" } } req := by
  cases co with
  | ret q => simp [classifyFallbackOutcome] at h
  | hang =>
      cases env
      rfl
  | raise e =>
      cases e with
      | http s d =>
          have hs : s = 408 := by simpa [classifyFallbackOutcome] using h
          subst hs
          cases env
          rfl
      | timeoutErr =>
          cases env
          rfl
      | exc m =>
          cases env
          rfl

theorem C3_classification_fallback_witness :
    handle_chat_query_service { envOk with query_type_run := .hang } reqNew =
      handle_chat_query_service { envOk with query_type_run := .ret { query_type := "sql" } } reqNew :=
  C3_classification_fallback envOk reqNew .hang rfl

/-- C4.  With data already retrieved (one row) and a summarization call that
    times out, the turn does not complete with success=true carrying the
    data: line 194 of chat_service.py reads the never-assigned local
    bar_chart_response, the resulting UnboundLocalError is caught by the
    outer boundary, and the caller receives a success=false error response
    with no data. -/
theorem C4_summarization_timeout_crashes_turn :
    handle_chat_query_service envSummaryHang reqNew =
      .ok (mkFailureResponse reqNew (.exc unboundBarChartMsg)) := by
  rfl

/-- C5.  When the executed query returns zero rows the turn never completes
    with the synthesized "No data found matching the query criteria."
    summary, even though the lighter agent call succeeds: bar_chart_response
    is only assigned on the non-empty-data path, so line 194 raises
    UnboundLocalError and the caller receives a success=false error
    response. -/
theorem C5_zero_rows_crashes_turn :
    handle_chat_query_service envEmptyRows reqNew =
      .ok (mkFailureResponse reqNew (.exc unboundBarChartMsg)) := by
  rfl

/-- C6.  The counterexample: a generic database execution failure is wrapped
    by execute_query into an HTTPException 500 (an ExecutionError), which
    the orchestrator boundary re-raises as a raw fault instead of converting
    it into a success=false ChatResponse. -/
theorem C6_execution_error_raw_fault :
    handle_chat_query_service envExecBoom reqNew =
      .error (.http 500 "Failed to execute query: boom") := by
  rfl

/-- C6 (amended).  Every fault the orchestrator lets escape is an
    HTTPException (never a raw generic exception or bare TimeoutError), and
    every generic exception escaping the turn body is converted into the
    success=false response with zeroed metrics. -/
theorem C6_orchestrator_boundary (env : Env) (req : Request) :
    onlyHttpFaultB (handle_chat_query_service env req) = true ∧
    (∀ m, mainBody env req = .error (.exc m) →
        handle_chat_query_service env req = .ok (mkFailureResponse req (.exc m))) := by
  constructor
  · unfold handle_chat_query_service orchestratorBoundary
    cases hm : mainBody env req with
    | ok r => rfl
    | error e => cases e <;> rfl
  · intro m hm
    unfold handle_chat_query_service orchestratorBoundary
    rw [hm]

theorem C6_orchestrator_boundary_witness :
    handle_chat_query_service envAgentBoom reqNew =
      .ok (mkFailureResponse reqNew (.exc "agent blew up")) :=
  (C6_orchestrator_boundary envAgentBoom reqNew).2 "agent blew up" rfl

/-- C10.  Chart derivation is non-fatal and its result is exclusive:
    chart_data and chart_data_error are never both present in any produced
    analysis (and in any produced response); a failed bar-chart agent call
    (error or timeout) yields no analysis at all; a failure of the repaired
    chart-SQL execution yields the analysis carrying chart_data_error
    instead of chart_data; and once the data is non-empty and summarization
    succeeded the turn completes with success=true carrying the data,
    whatever the chart stage (including its database calls) does. -/
theorem C10_chart_nonfatal_exclusive :
    (∀ db maxR chartO, chartExclusiveB (chartStage db maxR chartO) = true) ∧
    (∀ db maxR chartO e,
        with_timeout chartO AI_AGENT_TIMEOUT "Bar chart analysis" = .error e →
        chartStage db maxR chartO = none) ∧
    (∀ db maxR chartO r s e,
        with_timeout chartO AI_AGENT_TIMEOUT "Bar chart analysis" = .ok (some r) →
        r.chart_possible = true →
        r.modified_sql = some s →
        s ≠ "" →
        (execute_query db maxR (validate_and_fix_query s)).result = .error e →
        chartStage db maxR chartO =
          some { chart_possible := r.chart_possible, modified_sql := r.modified_sql,
                 chart_data := none, chart_data_error := some (errStr e) }) ∧
    (∀ env req, respChartExclusiveB (handle_chat_query_service env req) = true) ∧
    (∀ summD summN chartO db maxR respO updO q cid sqlq data sres,
        data ≠ [] →
        with_timeout summD AI_AGENT_TIMEOUT "AI summary generation" = .ok sres →
        ∃ r, afterExec summD summN chartO db maxR respO updO q cid sqlq data = .ok r ∧
            r.success = true ∧ r.data = data ∧ r.bar_chart = chartStage db maxR chartO) := by
  refine ⟨chartStage_exclusive, ?_, ?_, ?_, ?_⟩
  · intro db maxR chartO e h
    unfold chartStage
    rw [h]
  · intro db maxR chartO r s e hA hP hM hNe hE
    unfold chartStage
    rw [hA]
    dsimp only
    rw [hP, hM]
    have ht : truthyStrOpt (some s) = true := by simp [truthyStrOpt, hNe]
    rw [ht]
    simp only [Option.getD_some]
    rw [hE]
    rfl
  · intro env req
    unfold handle_chat_query_service orchestratorBoundary
    have h := mainBody_chartExcl env req
    cases hm : mainBody env req with
    | ok r =>
        rw [hm] at h
        exact h
    | error e => cases e <;> rfl
  · intro summD summN chartO db maxR respO updO q cid sqlq data sres hne hsum
    unfold afterExec
    cases data with
    | nil => exact absurd rfl hne
    | cons a t =>
        rw [hsum]
        exact ⟨_, rfl, rfl, rfl, rfl⟩

theorem C10_chart_nonfatal_exclusive_witness :
    (chartStage dbBoom 1000 chartPossibleRes =
      some { chart_possible := true, modified_sql := some "SELECT 3",
             chart_data := none,
             chart_data_error := some "500: Failed to execute query: boom" }) ∧
    (∃ r, afterExec (.ret sumResOk) (.ret sumResOk) (.ret none) dbOk 1000
          (.ret { summary := "Compact", metadata := "meta" }) (.ok ())
          "q" "chat-1" "SELECT 1" [rowA] = .ok r ∧
        r.success = true ∧ r.data = [rowA] ∧ r.bar_chart = chartStage dbOk 1000 (.ret none)) :=
  ⟨C10_chart_nonfatal_exclusive.2.2.1 dbBoom 1000 chartPossibleRes
      { chart_possible := true, modified_sql := some "SELECT 3" } "SELECT 3"
      (.http 500 "Failed to execute query: boom") rfl rfl rfl (by decide) rfl,
    C10_chart_nonfatal_exclusive.2.2.2.2 (.ret sumResOk) (.ret sumResOk) (.ret none) dbOk 1000
      (.ret { summary := "Compact", metadata := "meta" }) (.ok ()) "q" "chat-1" "SELECT 1" [rowA]
      sumResOk (by simp) rfl⟩

end AIMon
